import Mathlib

/-!
Verification development for the Position Lifecycle & Signal-Deduplication
Engine of the SIGNAL-ALERT system.

The definitions below are a shallow embedding of the Python sources:

* `app/util/risk_utils.py`            (`RiskCalculator.calculate_levels`)
* `app/services/position_manager.py`  (`PositionManager`: `create_position`,
  `update_positions`, `_check_tp_sl_hits`, `_calculate_levels`,
  `close_position`, `validate_price_sanity`)
* `app/services/signal_history_manager.py` (`SignalHistoryManager`:
  `should_notify`, `record_signal`, `clear_opposite_signal`,
  `_get_cooldown_minutes`)
* `app/services/signal_detector.py`   (the duplicate-alert gate of
  `SignalDetector.analyze_symbol`, lines 179-201)
* `app/utils/data_types.py`           (`DataConverter.validate_price_data`)

Prices, percentages and timestamps are modelled as rationals; timestamps are
seconds (UTC).  Python dicts keyed by strings are modelled as association
lists with unique keys (`alistLookup` / `alistInsert` / `alistErase`).
Fallible operations return `Option`.
-/

namespace SignalAlert

/-- Trade direction.  The source passes the strings "LONG" and "SHORT";
every branch on it is a `LONG` / else-`SHORT` two-way split. -/
inductive Direction
  | LONG
  | SHORT
deriving DecidableEq, Repr

/-- Position status, the strings 'ACTIVE' / 'CLOSED' in the source. -/
inductive Status
  | ACTIVE
  | CLOSED
deriving DecidableEq, Repr

/-- The string the source stores in the `direction` field. -/
def dirString : Direction → String
  | .LONG => "LONG"
  | .SHORT => "SHORT"

/-- Python `round(q)` on a rational: round to the nearest integer with ties
going to the even integer (banker's rounding). -/
def roundHalfEven (q : ℚ) : ℤ :=
  if Int.fract q = 1 / 2 then (if ⌊q⌋ % 2 = 0 then ⌊q⌋ else ⌊q⌋ + 1) else round q

/-- Python `round(q, n)`: round to `n` decimal digits. -/
def pyRound (n : ℕ) (q : ℚ) : ℚ :=
  (roundHalfEven (q * 10 ^ n) : ℚ) / 10 ^ n

/-- Association-list lookup, the model of `dict.get` / `in` on a
string-keyed Python dict. -/
def alistLookup {α : Type} : List (String × α) → String → Option α
  | [], _ => none
  | (k', v) :: rest, k => if k' = k then some v else alistLookup rest k

/-- Association-list upsert, the model of `d[k] = v` on a Python dict
(keys stay unique, insertion order of other keys is preserved). -/
def alistInsert {α : Type} : List (String × α) → String → α → List (String × α)
  | [], k, v => [(k, v)]
  | (k', v') :: rest, k, v =>
      if k' = k then (k, v) :: rest else (k', v') :: alistInsert rest k v

/-- Association-list delete, the model of `del d[k]` on a Python dict. -/
def alistErase {α : Type} : List (String × α) → String → List (String × α)
  | [], _ => []
  | (k', v') :: rest, k => if k' = k then rest else (k', v') :: alistErase rest k

/-! ## RiskCalculator (`app/util/risk_utils.py`) -/

/-- The dict returned by `RiskCalculator.calculate_levels`. -/
structure RiskLevels where
  entry_price : ℚ
  stop_loss : ℚ
  take_profit_1 : ℚ
  take_profit_2 : ℚ
  take_profit_3 : ℚ
deriving DecidableEq, Repr

/-- `RiskCalculator.calculate_levels` (`app/util/risk_utils.py`, lines 7-35).
The source returns the empty dict `{}` when `not entry or entry <= 0`;
that rejection outcome is modelled as `none` (on rationals `not entry`
means `entry = 0`, already covered by `entry ≤ 0`).  Levels are rounded
to 6 decimal digits exactly as in the source.  The source indexes
`tps[0] .. tps[2]` directly; all uses pass a three-element list, which
`List.getD` reproduces. -/
def calculate_levels (entry : ℚ) (direction : Direction) (sl_pct : ℚ)
    (tp_levels : List ℚ) : Option RiskLevels :=
  if entry ≤ 0 then none
  else
    let sl : ℚ := match direction with
      | .LONG => entry * (1 - sl_pct / 100)
      | .SHORT => entry * (1 + sl_pct / 100)
    let tps : List ℚ := match direction with
      | .LONG => tp_levels.map (fun p => entry * (1 + p / 100))
      | .SHORT => tp_levels.map (fun p => entry * (1 - p / 100))
    some { entry_price := entry
           stop_loss := pyRound 6 sl
           take_profit_1 := pyRound 6 (tps.getD 0 0)
           take_profit_2 := pyRound 6 (tps.getD 1 0)
           take_profit_3 := pyRound 6 (tps.getD 2 0) }

/-! ## PositionManager data model (`app/services/position_manager.py`) -/

/-- The three take-profit price levels, the dict
`{'TP1': .., 'TP2': .., 'TP3': ..}` in the source. -/
structure TpLevels where
  tp1 : ℚ
  tp2 : ℚ
  tp3 : ℚ
deriving DecidableEq, Repr

/-- The three take-profit hit flags, the dict
`{'TP1': bool, 'TP2': bool, 'TP3': bool}` in the source. -/
structure TpHit where
  tp1 : Bool
  tp2 : Bool
  tp3 : Bool
deriving DecidableEq, Repr

/-- One position record, the dict built by
`PositionManager.create_position` (lines 64-81).  `close_reason` and
`close_time` are absent until the position closes, hence `Option`. -/
structure Position where
  id : String
  symbol : String
  timeframe : String
  direction : Direction
  entry_price : ℚ
  entry_time : ℚ
  status : Status
  tp_levels : TpLevels
  sl_level : ℚ
  tp_hit : TpHit
  sl_hit : Bool
  current_price : ℚ
  pnl_pct : ℚ
  signal_strength : ℚ
  last_update : ℚ
  close_reason : Option String
  close_time : Option ℚ
deriving DecidableEq, Repr

/-- The position store `self.positions`: a JSON dict keyed by
`"{symbol}_{timeframe}_{direction}"`. -/
abbrev Store := List (String × Position)

/-- The position key `f"{symbol}_{timeframe}_{direction}"`
(`create_position`, line 54). -/
def positionId (symbol timeframe : String) (d : Direction) : String :=
  symbol ++ "_" ++ timeframe ++ "_" ++ dirString d

/-- `PositionManager.PRICE_TOLERANCE = 0.005` (line 21). -/
def PRICE_TOLERANCE : ℚ := 5 / 1000

/-- `DataConverter.validate_price_data` (`app/utils/data_types.py`,
lines 59-68): a rational price is always float-convertible, so the check
reduces to `price > 0`. -/
def validate_price_data (price : ℚ) : Bool :=
  decide (0 < price)

/-- `PositionManager.validate_price_sanity` (lines 329-346).  The Python
guard `if previous_price and previous_price > 0` runs the 30 %-change
check only when a previous price is present and positive. -/
def validate_price_sanity (price : ℚ) (previous_price : Option ℚ) : Bool :=
  if price ≤ 0 then false
  else
    match previous_price with
    | some prev =>
        if 0 < prev ∧ 30 < |(price - prev) / prev * 100| then false else true
    | none => true

/-- The `RISK_MANAGEMENT` table with the `.get(timeframe, RISK_MANAGEMENT['4h'])`
default applied (`position_manager.py`, lines 8-16 and 223).  In the source
`from config.settings import RISK_MANAGEMENT` raises `ImportError`
(`RISK_MANAGEMENT` is an attribute of the `Config` class, not a module-level
name), so the fallback table of lines 12-16 is the one in effect. -/
def RISK_MANAGEMENT_get (timeframe : String) : List ℚ × ℚ :=
  if timeframe = "4h" then ([3, 5, 7], 3)
  else if timeframe = "1h" then ([2, 7 / 2, 5], 2)
  else if timeframe = "1d" then ([5, 8, 12], 4)
  else ([3, 5, 7], 3)

/-- `PositionManager._calculate_levels` (lines 221-240): percentage table by
timeframe, levels rounded to 8 decimal digits. -/
def calculate_levels_pm (entry_price : ℚ) (direction : Direction)
    (timeframe : String) : TpLevels × ℚ :=
  let cfg := RISK_MANAGEMENT_get timeframe
  let tp := cfg.1
  let slp := cfg.2
  match direction with
  | .LONG =>
      (⟨pyRound 8 (entry_price * (1 + tp.getD 0 0 / 100)),
        pyRound 8 (entry_price * (1 + tp.getD 1 0 / 100)),
        pyRound 8 (entry_price * (1 + tp.getD 2 0 / 100))⟩,
       pyRound 8 (entry_price * (1 - slp / 100)))
  | .SHORT =>
      (⟨pyRound 8 (entry_price * (1 - tp.getD 0 0 / 100)),
        pyRound 8 (entry_price * (1 - tp.getD 1 0 / 100)),
        pyRound 8 (entry_price * (1 - tp.getD 2 0 / 100))⟩,
       pyRound 8 (entry_price * (1 + slp / 100)))

/-- The fields of `signal_data` consumed by `create_position` (lines 37-40,
78). -/
structure SignalData where
  symbol : String
  timeframe : String
  direction : Direction
  current_price : ℚ
  signal_strength : ℚ

/-- `PositionManager.create_position` (lines 34-94).  Gates in source order:
`validate_price_data`, then `validate_price_sanity` against the cached
price `data_manager.price_cache.get(symbol)` (modelled as the function
`price_cache`), then the existing-key check — rejection only when the key
`"{symbol}_{timeframe}_{direction}"` is present with status ACTIVE; a
CLOSED record under the same key is overwritten.  Returns the new
position id, or `none` for every rejection.  `sanitize_signal_data` is a
JSON-serialization identity on these fields and is omitted. -/
def create_position (price_cache : String → Option ℚ) (now : ℚ)
    (st : Store) (sd : SignalData) : Option String × Store :=
  if ¬ validate_price_data sd.current_price then (none, st)
  else if ¬ validate_price_sanity sd.current_price (price_cache sd.symbol) then (none, st)
  else
    let pid := positionId sd.symbol sd.timeframe sd.direction
    let blocked : Bool := match alistLookup st pid with
      | some existing => decide (existing.status = Status.ACTIVE)
      | none => false
    if blocked then (none, st)
    else
      let lv := calculate_levels_pm sd.current_price sd.direction sd.timeframe
      let pos : Position :=
        { id := pid
          symbol := sd.symbol
          timeframe := sd.timeframe
          direction := sd.direction
          entry_price := sd.current_price
          entry_time := now
          status := Status.ACTIVE
          tp_levels := lv.1
          sl_level := lv.2
          tp_hit := ⟨false, false, false⟩
          sl_hit := false
          current_price := sd.current_price
          pnl_pct := 0
          signal_strength := sd.signal_strength
          last_update := now
          close_reason := none
          close_time := none }
      (some pid, alistInsert st pid pos)

/-- `PositionManager.close_position` (lines 255-269): if the key is present
— with no check of the current status — set status CLOSED, overwrite
`close_reason` and `close_time`, return `True`; otherwise return `False`. -/
def close_position (now : ℚ) (st : Store) (position_id reason : String) :
    Bool × Store :=
  match alistLookup st position_id with
  | some pos =>
      (true,
       alistInsert st position_id
         { pos with status := Status.CLOSED
                    close_reason := some reason
                    close_time := some now })
  | none => (false, st)

/-! ## Repricing (`update_positions` / `_check_tp_sl_hits`) -/

/-- A take-profit hit condition under the tolerance band (lines 164-169):
LONG hits once `current_price ≥ tp_price * (1 - τ)`, SHORT once
`current_price ≤ tp_price * (1 + τ)`. -/
def tpCond (d : Direction) (tp_price current_price : ℚ) : Bool :=
  match d with
  | .LONG => decide (tp_price * (1 - PRICE_TOLERANCE) ≤ current_price)
  | .SHORT => decide (current_price ≤ tp_price * (1 + PRICE_TOLERANCE))

/-- The stop-loss hit condition under the tolerance band (lines 193-198):
LONG hits once `current_price ≤ sl_level * (1 + τ)`, SHORT once
`current_price ≥ sl_level * (1 - τ)`. -/
def slCond (d : Direction) (sl_level current_price : ℚ) : Bool :=
  match d with
  | .LONG => decide (current_price ≤ sl_level * (1 + PRICE_TOLERANCE))
  | .SHORT => decide (sl_level * (1 - PRICE_TOLERANCE) ≤ current_price)

/-- One entry of the `updates` dict of `_check_tp_sl_hits`
(lines 173-178 and 205-210). -/
structure HitEvent where
  hit : Bool
  price : ℚ
  target_price : ℚ
  timestamp : ℚ
deriving DecidableEq, Repr

/-- The `updates` dict accumulated by `_check_tp_sl_hits`: the possible
keys are `TP1_hit`, `TP2_hit`, `TP3_hit`, `sl_hit` and `position_closed`. -/
structure Updates where
  tp1_hit : Option HitEvent
  tp2_hit : Option HitEvent
  tp3_hit : Option HitEvent
  sl_hit : Option HitEvent
  position_closed : Bool
deriving DecidableEq, Repr

/-- The empty `updates = {}` dict. -/
def Updates.empty : Updates :=
  ⟨none, none, none, none, false⟩

/-- Whether the `updates` dict is still empty (`_check_tp_sl_hits` returns
`updates if updates else None`; `position_closed` is only ever inserted
as `True`). -/
def Updates.isEmpty (u : Updates) : Bool :=
  u.tp1_hit.isNone && u.tp2_hit.isNone && u.tp3_hit.isNone &&
    u.sl_hit.isNone && !u.position_closed

/-- The TP1 iteration of the `for tp_name, tp_price in tp_levels.items()`
loop (lines 160-187): skip if already hit; otherwise on a hit set the
flag, record the event, and — `if all(position['tp_hit'].values())` —
close with reason `ALL_TP_HIT`. -/
def tpStep1 (now current_price : ℚ) (s : Position × Updates) :
    Position × Updates :=
  let pos := s.1
  let u := s.2
  if pos.tp_hit.tp1 then s
  else if tpCond pos.direction pos.tp_levels.tp1 current_price then
    let pos' := { pos with tp_hit := { pos.tp_hit with tp1 := true } }
    let u' := { u with tp1_hit := some ⟨true, current_price, pos.tp_levels.tp1, now⟩ }
    if pos'.tp_hit.tp1 && pos'.tp_hit.tp2 && pos'.tp_hit.tp3 then
      ({ pos' with status := Status.CLOSED
                   close_reason := some "ALL_TP_HIT"
                   close_time := some now },
       { u' with position_closed := true })
    else (pos', u')
  else s

/-- The TP2 iteration of the same loop. -/
def tpStep2 (now current_price : ℚ) (s : Position × Updates) :
    Position × Updates :=
  let pos := s.1
  let u := s.2
  if pos.tp_hit.tp2 then s
  else if tpCond pos.direction pos.tp_levels.tp2 current_price then
    let pos' := { pos with tp_hit := { pos.tp_hit with tp2 := true } }
    let u' := { u with tp2_hit := some ⟨true, current_price, pos.tp_levels.tp2, now⟩ }
    if pos'.tp_hit.tp1 && pos'.tp_hit.tp2 && pos'.tp_hit.tp3 then
      ({ pos' with status := Status.CLOSED
                   close_reason := some "ALL_TP_HIT"
                   close_time := some now },
       { u' with position_closed := true })
    else (pos', u')
  else s

/-- The TP3 iteration of the same loop. -/
def tpStep3 (now current_price : ℚ) (s : Position × Updates) :
    Position × Updates :=
  let pos := s.1
  let u := s.2
  if pos.tp_hit.tp3 then s
  else if tpCond pos.direction pos.tp_levels.tp3 current_price then
    let pos' := { pos with tp_hit := { pos.tp_hit with tp3 := true } }
    let u' := { u with tp3_hit := some ⟨true, current_price, pos.tp_levels.tp3, now⟩ }
    if pos'.tp_hit.tp1 && pos'.tp_hit.tp2 && pos'.tp_hit.tp3 then
      ({ pos' with status := Status.CLOSED
                   close_reason := some "ALL_TP_HIT"
                   close_time := some now },
       { u' with position_closed := true })
    else (pos', u')
  else s

/-- The stop-loss block of `_check_tp_sl_hits` (lines 189-213).  It runs
after the TP loop with no status guard, so on a hit it overwrites any
`close_reason` the TP loop just wrote. -/
def slStep (now current_price : ℚ) (s : Position × Updates) :
    Position × Updates :=
  let pos := s.1
  let u := s.2
  if pos.sl_hit then s
  else if slCond pos.direction pos.sl_level current_price then
    ({ pos with sl_hit := true
                status := Status.CLOSED
                close_reason := some "SL_HIT"
                close_time := some now },
     { u with sl_hit := some ⟨true, current_price, pos.sl_level, now⟩
              position_closed := true })
  else s

/-- `PositionManager._check_tp_sl_hits` (lines 151-219): the TP loop over
TP1, TP2, TP3 in dict order, then the stop-loss block; returns the
mutated position together with the `updates` dict (`none` when empty).
`old_price` is accepted and unused, as in the source. -/
def check_tp_sl_hits (now : ℚ) (pos : Position) (old_price current_price : ℚ) :
    Position × Option Updates :=
  let s := slStep now current_price
    (tpStep3 now current_price
      (tpStep2 now current_price
        (tpStep1 now current_price (pos, Updates.empty))))
  (s.1, if s.2.isEmpty then none else some s.2)

/-- The per-position price refresh of `update_positions` (lines 119-133):
set `current_price` and `last_update`, recompute the direction-adjusted
`pnl_pct` rounded to 2 digits. -/
def applyPrice (now current_price : ℚ) (pos : Position) : Position :=
  let pnl : ℚ := match pos.direction with
    | .LONG => (current_price - pos.entry_price) / pos.entry_price * 100
    | .SHORT => (pos.entry_price - current_price) / pos.entry_price * 100
  { pos with current_price := current_price
             last_update := now
             pnl_pct := pyRound 2 pnl }

/-- `PositionManager.update_positions` (lines 96-149): for every ACTIVE
position whose symbol has a price in the feed (`prices`, the result of
`get_current_prices_cached`), refresh price and P&L and run
`_check_tp_sl_hits`; positions with no current price, and non-ACTIVE
positions, are left untouched.  Returns the new store and the collected
non-empty `updates` dicts keyed by position id. -/
def update_positions (prices : String → Option ℚ) (now : ℚ) :
    Store → Store × List (String × Updates)
  | [] => ([], [])
  | (k, pos) :: rest =>
    let tail := update_positions prices now rest
    if pos.status = Status.ACTIVE then
      match prices pos.symbol with
      | some p =>
          let r := check_tp_sl_hits now (applyPrice now p pos) pos.current_price p
          ((k, r.1) :: tail.1,
           match r.2 with
           | some u => (k, u) :: tail.2
           | none => tail.2)
      | none => ((k, pos) :: tail.1, tail.2)
    else ((k, pos) :: tail.1, tail.2)

/-! ## SignalHistoryManager (`app/services/signal_history_manager.py`) -/

/-- One record of `signal_history` (`record_signal`, lines 244-251).  The
source stores `date` as a timezone-aware ISO string and parses it back
with `_parse_iso_datetime`; here the instant is stored directly as a
rational timestamp in seconds, which is the parse of every string
`record_signal` writes, so the `last_dt is None` fallback branch of
`should_notify` cannot arise. -/
structure HistoryRecord where
  symbol : String
  timeframe : String
  signal_type : String
  price : ℚ
  date : ℚ
  notified : Bool
deriving DecidableEq, Repr

/-- The signal-history dict keyed by `"{symbol}_{timeframe}_{signal_type}"`. -/
abbrev History := List (String × HistoryRecord)

/-- The history key `f"{symbol}_{timeframe}_{signal_type}"`. -/
def historyKey (symbol timeframe signal_type : String) : String :=
  symbol ++ "_" ++ timeframe ++ "_" ++ signal_type

/-- `SignalHistoryManager._get_cooldown_minutes` (lines 113-127): 60 minutes
for "15m", 1440 for "1d", default 60. -/
def get_cooldown_minutes (timeframe : String) : ℚ :=
  if timeframe = "15m" then 60
  else if timeframe = "1d" then 1440
  else 60

/-- `SignalHistoryManager.should_notify` (lines 154-217): notify when no
record exists for the key, or when the elapsed minutes since the
record's `date` reach the cooldown. -/
def should_notify (now : ℚ) (h : History)
    (symbol timeframe signal_type : String) (current_price : ℚ) : Bool :=
  match alistLookup h (historyKey symbol timeframe signal_type) with
  | none => true
  | some r =>
      let minutes := (now - r.date) / 60
      decide (get_cooldown_minutes timeframe ≤ minutes)

/-- `SignalHistoryManager.record_signal` (lines 219-261): upsert the record
for the key with the current instant and price. -/
def record_signal (now : ℚ) (h : History)
    (symbol timeframe signal_type : String) (current_price : ℚ) : History :=
  alistInsert h (historyKey symbol timeframe signal_type)
    { symbol := symbol
      timeframe := timeframe
      signal_type := signal_type
      price := current_price
      date := now
      notified := true }

/-- `SignalHistoryManager.clear_opposite_signal` (lines 263-292): delete the
record of the opposite direction for the same (symbol, timeframe). -/
def clear_opposite_signal (h : History)
    (symbol timeframe signal_type : String) : History :=
  let opposite := if signal_type = "LONG" then "SHORT" else "LONG"
  alistErase h (historyKey symbol timeframe opposite)

/-! ## The duplicate-alert gate of `SignalDetector.analyze_symbol`
(`app/services/signal_detector.py`, lines 179-201) -/

/-- Modelled from the spec: `PositionManager.has_active_position_any_tf` is
called by `SignalDetector.analyze_symbol` (line 185) but is defined
nowhere in the repository.  Per its name, the call-site log message
"SKIP duplicate (ACTIVE any TF)", and the surrounding comment "if still
ACTIVE (not hit SL / not hit TP3), never notify again", it answers
whether any ACTIVE position exists for the symbol on any timeframe and
direction.  (At runtime the missing attribute raises `AttributeError`,
which the enclosing `except` swallows; either way the block below the
call — including history recording — is not reached when it would
report an active position, so the claims settled against this model do
not depend on which reading is taken.) -/
def has_active_position_any_tf (st : Store) (symbol : String) : Bool :=
  st.any (fun kv => decide (kv.2.symbol = symbol) && decide (kv.2.status = Status.ACTIVE))

/-- The duplicate-alert gate of `SignalDetector.analyze_symbol`
(lines 179-201), entered when a recommendation was produced:
`signal_type` is LONG if `signals["buy"]` else SHORT if
`signals["short"]`; with a signal type, first the hard block on
`has_active_position_any_tf`, then the history cooldown via
`should_notify`; only when both pass are `record_signal` and
`clear_opposite_signal` called.  Returns the resulting history and the
`should_notify` flag that gates the outbound alert. -/
def analyze_notify_block (now : ℚ) (st : Store) (h : History)
    (symbol timeframe : String) (buy short : Bool) (current_price : ℚ) :
    History × Bool :=
  let signal_type : Option String :=
    if buy then some "LONG" else if short then some "SHORT" else none
  match signal_type with
  | none => (h, false)
  | some sig =>
      if has_active_position_any_tf st symbol then (h, false)
      else if ¬ should_notify now h symbol timeframe sig current_price then (h, false)
      else
        (clear_opposite_signal
           (record_signal now h symbol timeframe sig current_price)
           symbol timeframe sig,
         true)

/-! ## Concrete sample data used by counterexamples and witnesses -/

/-- An empty price cache (`data_manager.price_cache` with no entries). -/
def noCache : String → Option ℚ := fun _ => none

/-- A price cache holding 100 for every symbol. -/
def cache100 : String → Option ℚ := fun _ => some 100

/-- A LONG candidate signal for BTCUSDT on 4h at price 100. -/
def sigLong : SignalData :=
  ⟨"BTCUSDT", "4h", Direction.LONG, 100, 100⟩

/-- A SHORT candidate signal for BTCUSDT on 4h at price 100. -/
def sigShort : SignalData :=
  ⟨"BTCUSDT", "4h", Direction.SHORT, 100, 100⟩

/-- An ACTIVE LONG position: entry 100, targets 101 / 102 / 103, stop 97,
nothing hit yet. -/
def basePos : Position :=
  { id := "BTCUSDT_4h_LONG"
    symbol := "BTCUSDT"
    timeframe := "4h"
    direction := Direction.LONG
    entry_price := 100
    entry_time := 0
    status := Status.ACTIVE
    tp_levels := ⟨101, 102, 103⟩
    sl_level := 97
    tp_hit := ⟨false, false, false⟩
    sl_hit := false
    current_price := 100
    pnl_pct := 0
    signal_strength := 100
    last_update := 0
    close_reason := none
    close_time := none }

/-- An ACTIVE LONG position whose target-1 and stop tolerance bands overlap
at price 100: target1 = 100.2 (band reaches down to 99.699) and
stop = 99.9 (band reaches up to 100.3995). -/
def overlapPos : Position :=
  { basePos with tp_levels := ⟨501 / 5, 502 / 5, 503 / 5⟩, sl_level := 999 / 10 }

/-- A CLOSED position that resolved as a stop hit at time 5. -/
def closedPos : Position :=
  { basePos with status := Status.CLOSED
                 sl_hit := true
                 close_reason := some "SL_HIT"
                 close_time := some 5 }

/-! ## Helper lemmas -/

theorem abs_roundHalfEven_sub (q : ℚ) : |(roundHalfEven q : ℚ) - q| ≤ 1 / 2 := by
  unfold roundHalfEven
  split_ifs with hf he
  · have hq : q - (⌊q⌋ : ℚ) = 1 / 2 := by
      have := hf
      unfold Int.fract at this
      exact this
    rw [abs_le]
    constructor <;> linarith
  · have hq : q - (⌊q⌋ : ℚ) = 1 / 2 := by
      have := hf
      unfold Int.fract at this
      exact this
    push_cast
    rw [abs_le]
    constructor <;> linarith
  · rw [abs_sub_comm]
    exact abs_sub_round q

theorem pyRound_bounds (n : ℕ) (q : ℚ) :
    q - 1 / (2 * 10 ^ n) ≤ pyRound n q ∧ pyRound n q ≤ q + 1 / (2 * 10 ^ n) := by
  have hpow : (0 : ℚ) < 10 ^ n := by positivity
  have hb := abs_roundHalfEven_sub (q * 10 ^ n)
  rw [abs_le] at hb
  obtain ⟨hb1, hb2⟩ := hb
  unfold pyRound
  constructor
  · rw [le_div_iff₀ hpow]
    have e : (q - 1 / (2 * 10 ^ n)) * 10 ^ n = q * 10 ^ n - 1 / 2 := by
      field_simp
      ring
    rw [e]
    linarith
  · rw [div_le_iff₀ hpow]
    have e : (q + 1 / (2 * 10 ^ n)) * 10 ^ n = q * 10 ^ n + 1 / 2 := by
      field_simp
      ring
    rw [e]
    linarith

theorem pyRound_sub_le (n : ℕ) (q : ℚ) : pyRound n q ≤ q + 1 / (2 * 10 ^ n) :=
  (pyRound_bounds n q).2

theorem le_pyRound_sub (n : ℕ) (q : ℚ) : q - 1 / (2 * 10 ^ n) ≤ pyRound n q :=
  (pyRound_bounds n q).1

theorem alistLookup_insert_self {α : Type} (l : List (String × α)) (k : String) (v : α) :
    alistLookup (alistInsert l k v) k = some v := by
  induction l with
  | nil => simp [alistInsert, alistLookup]
  | cons kv rest ih =>
    obtain ⟨k', v'⟩ := kv
    by_cases hk : k' = k
    · simp [alistInsert, alistLookup, hk]
    · simp [alistInsert, alistLookup, hk, ih]

theorem get_cooldown_minutes_pos (timeframe : String) :
    0 < get_cooldown_minutes timeframe := by
  unfold get_cooldown_minutes
  split_ifs <;> norm_num

theorem roundHalfEven_eq_zero (q : ℚ) (h1 : 0 ≤ q) (h2 : q < 1 / 2) :
    roundHalfEven q = 0 := by
  have hf : ⌊q⌋ = 0 := by
    rw [Int.floor_eq_iff]
    push_cast
    constructor <;> linarith
  have hfr : Int.fract q ≠ 1 / 2 := by
    rw [Int.fract, hf]
    push_cast
    intro hc
    linarith [hc]
  rw [roundHalfEven, if_neg hfr, round_eq]
  rw [Int.floor_eq_iff]
  push_cast
  constructor <;> linarith

/-! ## Claim C9 -/

/-- C9: `RiskCalculator.calculate_levels` rejects every entry ≤ 0 with the
error outcome (`none`, the source's empty dict) for any direction, stop
percentage and target list; being a pure function it has no side
effects. -/
theorem claim_C9_theorem (entry : ℚ) (direction : Direction) (sl_pct : ℚ)
    (tp_levels : List ℚ) (h : entry ≤ 0) :
    calculate_levels entry direction sl_pct tp_levels = none := by
  simp [calculate_levels, h]

/-- C9 witness: the rejection at the concrete input entry = -5. -/
theorem claim_C9_witness :
    (-5 : ℚ) ≤ 0 ∧ calculate_levels (-5) Direction.LONG 3 [3, 5, 7] = none :=
  ⟨by norm_num, claim_C9_theorem (-5) Direction.LONG 3 [3, 5, 7] (by norm_num)⟩

/-! ## Claim C5 -/

/-- C5 counterexample: closing an already-CLOSED position does not return
false and leave it unchanged — it returns true and overwrites
`close_reason` (SL_HIT → MANUAL) and `close_time` (5 → 9). -/
theorem claim_C5_counterexample :
    closedPos.status = Status.CLOSED ∧
    closedPos.close_reason = some "SL_HIT" ∧
    closedPos.close_time = some 5 ∧
    (close_position 9 [("BTCUSDT_4h_LONG", closedPos)] "BTCUSDT_4h_LONG" "MANUAL").1 = true ∧
    alistLookup
      (close_position 9 [("BTCUSDT_4h_LONG", closedPos)] "BTCUSDT_4h_LONG" "MANUAL").2
      "BTCUSDT_4h_LONG" =
      some { closedPos with close_reason := some "MANUAL", close_time := some 9 } := by
  refine ⟨rfl, rfl, rfl, rfl, ?_⟩
  simp [close_position, alistLookup, alistInsert, closedPos, basePos]

/-- C5 (amended): `close_position` returns false and changes nothing only
when the key is absent; whenever the key is present — even if the
position is already CLOSED — it returns true, sets status CLOSED and
overwrites `close_reason` and `close_time`. -/
theorem claim_C5_theorem (now : ℚ) (st : Store) (position_id reason : String) :
    (alistLookup st position_id = none →
      close_position now st position_id reason = (false, st)) ∧
    (∀ pos, alistLookup st position_id = some pos →
      (close_position now st position_id reason).1 = true ∧
      (close_position now st position_id reason).2 =
        alistInsert st position_id
          { pos with status := Status.CLOSED
                     close_reason := some reason
                     close_time := some now }) := by
  constructor
  · intro h
    simp [close_position, h]
  · intro pos h
    simp [close_position, h]

/-- C5 witness: both halves of the amended claim at concrete inputs. -/
theorem claim_C5_witness :
    close_position 0 [] "BTCUSDT_4h_LONG" "MANUAL" = (false, []) ∧
    (close_position 9 [("k", basePos)] "k" "MANUAL").1 = true :=
  ⟨(claim_C5_theorem 0 [] "BTCUSDT_4h_LONG" "MANUAL").1 rfl,
   ((claim_C5_theorem 9 [("k", basePos)] "k" "MANUAL").2 basePos (by simp [alistLookup])).1⟩

/-! ## Claim C7 -/

/-- C7: `should_notify` is true iff no record exists for the key or the
elapsed minutes since the record's instant reach `cooldown(interval)`;
consequently it is false immediately after `record_signal` for the same
key, and after a record it is true exactly once the elapsed minutes
reach the cooldown. -/
theorem claim_C7_theorem (now later : ℚ) (h : History)
    (symbol timeframe signal_type : String) (price price' : ℚ) :
    (should_notify now h symbol timeframe signal_type price = true ↔
      alistLookup h (historyKey symbol timeframe signal_type) = none ∨
      ∃ r, alistLookup h (historyKey symbol timeframe signal_type) = some r ∧
        get_cooldown_minutes timeframe ≤ (now - r.date) / 60) ∧
    should_notify now (record_signal now h symbol timeframe signal_type price)
      symbol timeframe signal_type price' = false ∧
    (should_notify later (record_signal now h symbol timeframe signal_type price)
        symbol timeframe signal_type price' = true ↔
      get_cooldown_minutes timeframe ≤ (later - now) / 60) := by
  refine ⟨?_, ?_, ?_⟩
  · cases hl : alistLookup h (historyKey symbol timeframe signal_type) with
    | none => simp [should_notify, hl]
    | some r => simp [should_notify, hl]
  · have hl := alistLookup_insert_self h (historyKey symbol timeframe signal_type)
      { symbol := symbol, timeframe := timeframe, signal_type := signal_type,
        price := price, date := now, notified := true }
    have hc := get_cooldown_minutes_pos timeframe
    simp [should_notify, record_signal, hl]
    linarith [hc]
  · have hl := alistLookup_insert_self h (historyKey symbol timeframe signal_type)
      { symbol := symbol, timeframe := timeframe, signal_type := signal_type,
        price := price, date := now, notified := true }
    simp [should_notify, record_signal, hl]

/-! ## Claim C10 -/

/-- C10: `create_position` refuses (no id, store unchanged) whenever the
entry price is not positive, or a positive cached price exists for the
symbol and the entry price deviates from it by more than 30 percent. -/
theorem claim_C10_theorem (price_cache : String → Option ℚ) (now : ℚ)
    (st : Store) (sd : SignalData)
    (h : sd.current_price ≤ 0 ∨
      ∃ c, price_cache sd.symbol = some c ∧ 0 < c ∧
        30 < |(sd.current_price - c) / c * 100|) :
    create_position price_cache now st sd = (none, st) := by
  rcases h with hp | ⟨c, hc, hcpos, hdev⟩
  · have : validate_price_data sd.current_price = false := by
      simp [validate_price_data]
      linarith
    simp [create_position, this]
  · by_cases hp : sd.current_price ≤ 0
    · have : validate_price_data sd.current_price = false := by
        simp [validate_price_data]
        linarith
      simp [create_position, this]
    · have hd : validate_price_data sd.current_price = true := by
        simp [validate_price_data]
        linarith
      have hs : validate_price_sanity sd.current_price (price_cache sd.symbol) = false := by
        rw [hc]
        simp [validate_price_sanity, hp]
        exact ⟨hcpos, hdev⟩
      simp [create_position, hd, hs]

/-- C10 witness: with a cached price of 100, an entry of 131 (a 31 percent
jump) is refused and the store is unchanged. -/
theorem claim_C10_witness :
    create_position cache100 0 [] ⟨"BTCUSDT", "4h", Direction.LONG, 131, 100⟩ = (none, []) :=
  claim_C10_theorem cache100 0 [] ⟨"BTCUSDT", "4h", Direction.LONG, 131, 100⟩
    (Or.inr ⟨100, rfl, by norm_num, by norm_num⟩)

/-! ## Step lemmas for `_check_tp_sl_hits` -/

theorem tpStep1_pos_fields (now p : ℚ) (s : Position × Updates) :
    (tpStep1 now p s).1.direction = s.1.direction ∧
    (tpStep1 now p s).1.tp_levels = s.1.tp_levels ∧
    (tpStep1 now p s).1.sl_level = s.1.sl_level ∧
    (tpStep1 now p s).1.symbol = s.1.symbol ∧
    (tpStep1 now p s).1.sl_hit = s.1.sl_hit ∧
    (tpStep1 now p s).1.tp_hit.tp1 =
      (s.1.tp_hit.tp1 || tpCond s.1.direction s.1.tp_levels.tp1 p) ∧
    (tpStep1 now p s).1.tp_hit.tp2 = s.1.tp_hit.tp2 ∧
    (tpStep1 now p s).1.tp_hit.tp3 = s.1.tp_hit.tp3 := by
  unfold tpStep1
  dsimp only
  split_ifs <;> simp_all

theorem tpStep2_pos_fields (now p : ℚ) (s : Position × Updates) :
    (tpStep2 now p s).1.direction = s.1.direction ∧
    (tpStep2 now p s).1.tp_levels = s.1.tp_levels ∧
    (tpStep2 now p s).1.sl_level = s.1.sl_level ∧
    (tpStep2 now p s).1.symbol = s.1.symbol ∧
    (tpStep2 now p s).1.sl_hit = s.1.sl_hit ∧
    (tpStep2 now p s).1.tp_hit.tp1 = s.1.tp_hit.tp1 ∧
    (tpStep2 now p s).1.tp_hit.tp2 =
      (s.1.tp_hit.tp2 || tpCond s.1.direction s.1.tp_levels.tp2 p) ∧
    (tpStep2 now p s).1.tp_hit.tp3 = s.1.tp_hit.tp3 := by
  unfold tpStep2
  dsimp only
  split_ifs <;> simp_all

theorem tpStep3_pos_fields (now p : ℚ) (s : Position × Updates) :
    (tpStep3 now p s).1.direction = s.1.direction ∧
    (tpStep3 now p s).1.tp_levels = s.1.tp_levels ∧
    (tpStep3 now p s).1.sl_level = s.1.sl_level ∧
    (tpStep3 now p s).1.symbol = s.1.symbol ∧
    (tpStep3 now p s).1.sl_hit = s.1.sl_hit ∧
    (tpStep3 now p s).1.tp_hit.tp1 = s.1.tp_hit.tp1 ∧
    (tpStep3 now p s).1.tp_hit.tp2 = s.1.tp_hit.tp2 ∧
    (tpStep3 now p s).1.tp_hit.tp3 =
      (s.1.tp_hit.tp3 || tpCond s.1.direction s.1.tp_levels.tp3 p) := by
  unfold tpStep3
  dsimp only
  split_ifs <;> simp_all

theorem slStep_pos_fields (now p : ℚ) (s : Position × Updates) :
    (slStep now p s).1.direction = s.1.direction ∧
    (slStep now p s).1.tp_levels = s.1.tp_levels ∧
    (slStep now p s).1.sl_level = s.1.sl_level ∧
    (slStep now p s).1.symbol = s.1.symbol ∧
    (slStep now p s).1.tp_hit = s.1.tp_hit ∧
    (slStep now p s).1.sl_hit =
      (s.1.sl_hit || slCond s.1.direction s.1.sl_level p) := by
  unfold slStep
  dsimp only
  split_ifs <;> simp_all

theorem tpStep1_upd_fields (now p : ℚ) (s : Position × Updates) :
    (tpStep1 now p s).2.tp2_hit = s.2.tp2_hit ∧
    (tpStep1 now p s).2.tp3_hit = s.2.tp3_hit ∧
    (tpStep1 now p s).2.sl_hit = s.2.sl_hit ∧
    (tpStep1 now p s).2.tp1_hit =
      (if s.1.tp_hit.tp1 = false ∧ tpCond s.1.direction s.1.tp_levels.tp1 p = true
        then some ⟨true, p, s.1.tp_levels.tp1, now⟩ else s.2.tp1_hit) := by
  unfold tpStep1
  dsimp only
  split_ifs <;> simp_all

theorem tpStep2_upd_fields (now p : ℚ) (s : Position × Updates) :
    (tpStep2 now p s).2.tp1_hit = s.2.tp1_hit ∧
    (tpStep2 now p s).2.tp3_hit = s.2.tp3_hit ∧
    (tpStep2 now p s).2.sl_hit = s.2.sl_hit ∧
    (tpStep2 now p s).2.tp2_hit =
      (if s.1.tp_hit.tp2 = false ∧ tpCond s.1.direction s.1.tp_levels.tp2 p = true
        then some ⟨true, p, s.1.tp_levels.tp2, now⟩ else s.2.tp2_hit) := by
  unfold tpStep2
  dsimp only
  split_ifs <;> simp_all

theorem tpStep3_upd_fields (now p : ℚ) (s : Position × Updates) :
    (tpStep3 now p s).2.tp1_hit = s.2.tp1_hit ∧
    (tpStep3 now p s).2.tp2_hit = s.2.tp2_hit ∧
    (tpStep3 now p s).2.sl_hit = s.2.sl_hit ∧
    (tpStep3 now p s).2.tp3_hit =
      (if s.1.tp_hit.tp3 = false ∧ tpCond s.1.direction s.1.tp_levels.tp3 p = true
        then some ⟨true, p, s.1.tp_levels.tp3, now⟩ else s.2.tp3_hit) := by
  unfold tpStep3
  dsimp only
  split_ifs <;> simp_all

theorem slStep_upd_fields (now p : ℚ) (s : Position × Updates) :
    (slStep now p s).2.tp1_hit = s.2.tp1_hit ∧
    (slStep now p s).2.tp2_hit = s.2.tp2_hit ∧
    (slStep now p s).2.tp3_hit = s.2.tp3_hit := by
  unfold slStep
  dsimp only
  split_ifs <;> simp_all

theorem slStep_hit (now p : ℚ) (s : Position × Updates)
    (hflag : s.1.sl_hit = false)
    (hcond : slCond s.1.direction s.1.sl_level p = true) :
    (slStep now p s).1.status = Status.CLOSED ∧
    (slStep now p s).1.close_reason = some "SL_HIT" ∧
    (slStep now p s).1.close_time = some now ∧
    (slStep now p s).2.sl_hit = some ⟨true, p, s.1.sl_level, now⟩ ∧
    (slStep now p s).2.position_closed = true := by
  unfold slStep
  dsimp only
  simp [hflag, hcond]

theorem tpStep1_id (now p : ℚ) (s : Position × Updates)
    (h : s.1.tp_hit.tp1 = true ∨ tpCond s.1.direction s.1.tp_levels.tp1 p = false) :
    tpStep1 now p s = s := by
  unfold tpStep1
  dsimp only
  rcases h with h | h
  · simp [h]
  · by_cases h1 : s.1.tp_hit.tp1 <;> simp [h, h1]

theorem tpStep2_id (now p : ℚ) (s : Position × Updates)
    (h : s.1.tp_hit.tp2 = true ∨ tpCond s.1.direction s.1.tp_levels.tp2 p = false) :
    tpStep2 now p s = s := by
  unfold tpStep2
  dsimp only
  rcases h with h | h
  · simp [h]
  · by_cases h1 : s.1.tp_hit.tp2 <;> simp [h, h1]

theorem tpStep3_id (now p : ℚ) (s : Position × Updates)
    (h : s.1.tp_hit.tp3 = true ∨ tpCond s.1.direction s.1.tp_levels.tp3 p = false) :
    tpStep3 now p s = s := by
  unfold tpStep3
  dsimp only
  rcases h with h | h
  · simp [h]
  · by_cases h1 : s.1.tp_hit.tp3 <;> simp [h, h1]

theorem slStep_id (now p : ℚ) (s : Position × Updates)
    (h : s.1.sl_hit = true ∨ slCond s.1.direction s.1.sl_level p = false) :
    slStep now p s = s := by
  unfold slStep
  dsimp only
  rcases h with h | h
  · simp [h]
  · by_cases h1 : s.1.sl_hit <;> simp [h, h1]

theorem check_no_events (now old p : ℚ) (pos : Position)
    (h1 : pos.tp_hit.tp1 = true ∨ tpCond pos.direction pos.tp_levels.tp1 p = false)
    (h2 : pos.tp_hit.tp2 = true ∨ tpCond pos.direction pos.tp_levels.tp2 p = false)
    (h3 : pos.tp_hit.tp3 = true ∨ tpCond pos.direction pos.tp_levels.tp3 p = false)
    (h4 : pos.sl_hit = true ∨ slCond pos.direction pos.sl_level p = false) :
    check_tp_sl_hits now pos old p = (pos, none) := by
  unfold check_tp_sl_hits
  rw [tpStep1_id now p (pos, Updates.empty) h1]
  rw [tpStep2_id now p (pos, Updates.empty) h2]
  rw [tpStep3_id now p (pos, Updates.empty) h3]
  rw [slStep_id now p (pos, Updates.empty) h4]
  rfl

theorem check_fields (now old p : ℚ) (pos : Position) :
    (check_tp_sl_hits now pos old p).1.direction = pos.direction ∧
    (check_tp_sl_hits now pos old p).1.tp_levels = pos.tp_levels ∧
    (check_tp_sl_hits now pos old p).1.sl_level = pos.sl_level ∧
    (check_tp_sl_hits now pos old p).1.symbol = pos.symbol ∧
    (check_tp_sl_hits now pos old p).1.tp_hit.tp1 =
      (pos.tp_hit.tp1 || tpCond pos.direction pos.tp_levels.tp1 p) ∧
    (check_tp_sl_hits now pos old p).1.tp_hit.tp2 =
      (pos.tp_hit.tp2 || tpCond pos.direction pos.tp_levels.tp2 p) ∧
    (check_tp_sl_hits now pos old p).1.tp_hit.tp3 =
      (pos.tp_hit.tp3 || tpCond pos.direction pos.tp_levels.tp3 p) ∧
    (check_tp_sl_hits now pos old p).1.sl_hit =
      (pos.sl_hit || slCond pos.direction pos.sl_level p) := by
  obtain ⟨ad, al, asl, asy, ah, at1, at2, at3⟩ :=
    tpStep1_pos_fields now p (pos, Updates.empty)
  obtain ⟨bd, bl, bsl, bsy, bh, bt1, bt2, bt3⟩ :=
    tpStep2_pos_fields now p (tpStep1 now p (pos, Updates.empty))
  obtain ⟨cd, cl, csl, csy, ch, ct1, ct2, ct3⟩ :=
    tpStep3_pos_fields now p (tpStep2 now p (tpStep1 now p (pos, Updates.empty)))
  obtain ⟨dd, dl, dsl, dsy, dth, dh⟩ :=
    slStep_pos_fields now p
      (tpStep3 now p (tpStep2 now p (tpStep1 now p (pos, Updates.empty))))
  unfold check_tp_sl_hits
  dsimp only
  refine ⟨?_, ?_, ?_, ?_, ?_, ?_, ?_, ?_⟩
  · rw [dd, cd, bd, ad]
  · rw [dl, cl, bl, al]
  · rw [dsl, csl, bsl, asl]
  · rw [dsy, csy, bsy, asy]
  · rw [dth, ct1, bt1, at1]
  · rw [dth, ct2, bt2, at2, ad, al]
  · rw [dth, ct3, bt3, bd, bl, ad, al, at3]
  · rw [dh, ch, bh, ah, cd, bd, ad, csl, bsl, asl]

theorem applyPrice_fields (now p : ℚ) (pos : Position) :
    (applyPrice now p pos).direction = pos.direction ∧
    (applyPrice now p pos).tp_levels = pos.tp_levels ∧
    (applyPrice now p pos).sl_level = pos.sl_level ∧
    (applyPrice now p pos).symbol = pos.symbol ∧
    (applyPrice now p pos).tp_hit = pos.tp_hit ∧
    (applyPrice now p pos).sl_hit = pos.sl_hit ∧
    (applyPrice now p pos).status = pos.status := by
  unfold applyPrice
  exact ⟨rfl, rfl, rfl, rfl, rfl, rfl, rfl⟩

theorem check_second_none (now1 now2 old1 old2 p : ℚ) (pos : Position) :
    (check_tp_sl_hits now2
      (applyPrice now2 p (check_tp_sl_hits now1 pos old1 p).1) old2 p).2 = none := by
  obtain ⟨cd, cl, csl, csy, c1, c2, c3, cs⟩ := check_fields now1 old1 p pos
  obtain ⟨ad, al, asl, asy, ath, ash, ast⟩ :=
    applyPrice_fields now2 p (check_tp_sl_hits now1 pos old1 p).1
  have h1 : (applyPrice now2 p (check_tp_sl_hits now1 pos old1 p).1).tp_hit.tp1 = true ∨
      tpCond (applyPrice now2 p (check_tp_sl_hits now1 pos old1 p).1).direction
        (applyPrice now2 p (check_tp_sl_hits now1 pos old1 p).1).tp_levels.tp1 p = false := by
    rw [ath, ad, al, c1, cd, cl]
    cases hcond : tpCond pos.direction pos.tp_levels.tp1 p
    · exact Or.inr rfl
    · left; simp [c1, hcond]
  have h2 : (applyPrice now2 p (check_tp_sl_hits now1 pos old1 p).1).tp_hit.tp2 = true ∨
      tpCond (applyPrice now2 p (check_tp_sl_hits now1 pos old1 p).1).direction
        (applyPrice now2 p (check_tp_sl_hits now1 pos old1 p).1).tp_levels.tp2 p = false := by
    rw [ath, ad, al, c2, cd, cl]
    cases hcond : tpCond pos.direction pos.tp_levels.tp2 p
    · exact Or.inr rfl
    · left; simp [c2, hcond]
  have h3 : (applyPrice now2 p (check_tp_sl_hits now1 pos old1 p).1).tp_hit.tp3 = true ∨
      tpCond (applyPrice now2 p (check_tp_sl_hits now1 pos old1 p).1).direction
        (applyPrice now2 p (check_tp_sl_hits now1 pos old1 p).1).tp_levels.tp3 p = false := by
    rw [ath, ad, al, c3, cd, cl]
    cases hcond : tpCond pos.direction pos.tp_levels.tp3 p
    · exact Or.inr rfl
    · left; simp [c3, hcond]
  have h4 : (applyPrice now2 p (check_tp_sl_hits now1 pos old1 p).1).sl_hit = true ∨
      slCond (applyPrice now2 p (check_tp_sl_hits now1 pos old1 p).1).direction
        (applyPrice now2 p (check_tp_sl_hits now1 pos old1 p).1).sl_level p = false := by
    rw [ash, ad, asl, cs, cd, csl]
    cases hcond : slCond pos.direction pos.sl_level p
    · exact Or.inr rfl
    · left; simp [cs, hcond]
  rw [check_no_events now2 old2 p _ h1 h2 h3 h4]

/-! ## Claim C4 -/

/-- C4: repricing is idempotent with respect to crossing events — for every
store state, running `update_positions` twice with an unchanged price
feed yields no crossing events (no TP-hit, SL-hit or close entries) on
the second run; levels already recorded as hit are never re-emitted. -/
theorem claim_C4_theorem (prices : String → Option ℚ) (now1 now2 : ℚ) (st : Store) :
    (update_positions prices now2 (update_positions prices now1 st).1).2 = [] := by
  induction st with
  | nil => rfl
  | cons kv rest ih =>
    obtain ⟨k, pos⟩ := kv
    by_cases hact : pos.status = Status.ACTIVE
    · cases hp : prices pos.symbol with
      | none =>
        simp only [update_positions, hact, if_true, hp]
        simpa [update_positions, hact, hp] using ih
      | some p =>
        have hsym : (check_tp_sl_hits now1 (applyPrice now1 p pos) pos.current_price p).1.symbol
            = pos.symbol := by
          rw [(check_fields now1 pos.current_price p (applyPrice now1 p pos)).2.2.2.1,
            (applyPrice_fields now1 p pos).2.2.2.1]
        by_cases hst :
            (check_tp_sl_hits now1 (applyPrice now1 p pos) pos.current_price p).1.status
              = Status.ACTIVE
        · simp only [update_positions, hact, if_true, hp]
          simp only [update_positions, hst, if_true, hsym, hp]
          rw [check_second_none]
          simpa using ih
        · simp only [update_positions, hact, if_true, hp]
          simpa [update_positions, hst] using ih
    · simp only [update_positions, hact, if_false]
      simpa [update_positions, hact] using ih

/-! ## Claim C2 -/

/-- C2: when, in one reprice cycle, the stop condition newly triggers and a
target condition newly triggers as well, the position is closed with
reason SL_HIT (the source's string for the spec's STOP_HIT, not
ALL_TP_HIT): the stop block runs last and overwrites any close reason
the target loop wrote; the target crossing of the same cycle is still
recorded as its own event but does not determine the close reason. -/
theorem claim_C2_theorem (now p : ℚ) (pos : Position)
    (hactive : pos.status = Status.ACTIVE)
    (hslflag : pos.sl_hit = false)
    (hslcond : slCond pos.direction pos.sl_level p = true)
    (htp : (pos.tp_hit.tp1 = false ∧ tpCond pos.direction pos.tp_levels.tp1 p = true) ∨
      (pos.tp_hit.tp2 = false ∧ tpCond pos.direction pos.tp_levels.tp2 p = true) ∨
      (pos.tp_hit.tp3 = false ∧ tpCond pos.direction pos.tp_levels.tp3 p = true)) :
    (check_tp_sl_hits now pos pos.current_price p).1.status = Status.CLOSED ∧
    (check_tp_sl_hits now pos pos.current_price p).1.close_reason = some "SL_HIT" ∧
    ∃ u, (check_tp_sl_hits now pos pos.current_price p).2 = some u ∧
      u.sl_hit = some ⟨true, p, pos.sl_level, now⟩ ∧
      (pos.tp_hit.tp1 = false → tpCond pos.direction pos.tp_levels.tp1 p = true →
        u.tp1_hit = some ⟨true, p, pos.tp_levels.tp1, now⟩) ∧
      (pos.tp_hit.tp2 = false → tpCond pos.direction pos.tp_levels.tp2 p = true →
        u.tp2_hit = some ⟨true, p, pos.tp_levels.tp2, now⟩) ∧
      (pos.tp_hit.tp3 = false → tpCond pos.direction pos.tp_levels.tp3 p = true →
        u.tp3_hit = some ⟨true, p, pos.tp_levels.tp3, now⟩) := by
  obtain ⟨ad, al, asl, asy, ah, at1, at2, at3⟩ :=
    tpStep1_pos_fields now p (pos, Updates.empty)
  obtain ⟨bd, bl, bsl, bsy, bh, bt1, bt2, bt3⟩ :=
    tpStep2_pos_fields now p (tpStep1 now p (pos, Updates.empty))
  obtain ⟨cd, cl, csl, csy, ch, ct1, ct2, ct3⟩ :=
    tpStep3_pos_fields now p (tpStep2 now p (tpStep1 now p (pos, Updates.empty)))
  have hCsl : (tpStep3 now p (tpStep2 now p (tpStep1 now p (pos, Updates.empty)))).1.sl_hit
      = false := by rw [ch, bh, ah]; exact hslflag
  have hCcond : slCond
      (tpStep3 now p (tpStep2 now p (tpStep1 now p (pos, Updates.empty)))).1.direction
      (tpStep3 now p (tpStep2 now p (tpStep1 now p (pos, Updates.empty)))).1.sl_level p
      = true := by rw [cd, bd, ad, csl, bsl, asl]; exact hslcond
  obtain ⟨hst, hcr, hct, hse, hpc⟩ :=
    slStep_hit now p (tpStep3 now p (tpStep2 now p (tpStep1 now p (pos, Updates.empty))))
      hCsl hCcond
  obtain ⟨ua2, ua3, uas, ua1⟩ := tpStep1_upd_fields now p (pos, Updates.empty)
  obtain ⟨ub1, ub3, ubs, ub2⟩ :=
    tpStep2_upd_fields now p (tpStep1 now p (pos, Updates.empty))
  obtain ⟨uc1, uc2, ucs, uc3⟩ :=
    tpStep3_upd_fields now p (tpStep2 now p (tpStep1 now p (pos, Updates.empty)))
  obtain ⟨ud1, ud2, ud3⟩ :=
    slStep_upd_fields now p
      (tpStep3 now p (tpStep2 now p (tpStep1 now p (pos, Updates.empty))))
  have hu1 : pos.tp_hit.tp1 = false → tpCond pos.direction pos.tp_levels.tp1 p = true →
      (slStep now p (tpStep3 now p (tpStep2 now p
        (tpStep1 now p (pos, Updates.empty))))).2.tp1_hit =
      some ⟨true, p, pos.tp_levels.tp1, now⟩ := by
    intro hf hc
    rw [ud1, uc1, ub1, ua1]
    simp [hf, hc]
  have hu2 : pos.tp_hit.tp2 = false → tpCond pos.direction pos.tp_levels.tp2 p = true →
      (slStep now p (tpStep3 now p (tpStep2 now p
        (tpStep1 now p (pos, Updates.empty))))).2.tp2_hit =
      some ⟨true, p, pos.tp_levels.tp2, now⟩ := by
    intro hf hc
    rw [ud2, uc2, ub2, at2, ad, al, ua2]
    simp [hf, hc]
  have hu3 : pos.tp_hit.tp3 = false → tpCond pos.direction pos.tp_levels.tp3 p = true →
      (slStep now p (tpStep3 now p (tpStep2 now p
        (tpStep1 now p (pos, Updates.empty))))).2.tp3_hit =
      some ⟨true, p, pos.tp_levels.tp3, now⟩ := by
    intro hf hc
    rw [ud3, uc3, bt3, at3, bd, ad, bl, al, ub3, ua3]
    simp [hf, hc]
  have hsl2 : (slStep now p (tpStep3 now p (tpStep2 now p
      (tpStep1 now p (pos, Updates.empty))))).2.sl_hit =
      some ⟨true, p, pos.sl_level, now⟩ := by
    rw [hse, csl, bsl, asl]
  have hne : (slStep now p (tpStep3 now p (tpStep2 now p
      (tpStep1 now p (pos, Updates.empty))))).2.isEmpty = false := by
    simp [Updates.isEmpty, hsl2]
  unfold check_tp_sl_hits
  dsimp only
  rw [hne]
  exact ⟨hst, hcr, _, rfl, hsl2, hu1, hu2, hu3⟩

/-- C2 witness: a LONG position whose target-1 band and stop band overlap at
price 100 (target1 = 100.2, stop = 99.9, tolerance 0.5 percent) closes
with SL_HIT. -/
theorem claim_C2_witness :
    overlapPos.status = Status.ACTIVE ∧
    slCond overlapPos.direction overlapPos.sl_level 100 = true ∧
    tpCond overlapPos.direction overlapPos.tp_levels.tp1 100 = true ∧
    (check_tp_sl_hits 7 overlapPos overlapPos.current_price 100).1.close_reason =
      some "SL_HIT" ∧
    (check_tp_sl_hits 7 overlapPos overlapPos.current_price 100).1.status =
      Status.CLOSED := by
  have hsl : slCond overlapPos.direction overlapPos.sl_level 100 = true := by
    norm_num [slCond, overlapPos, basePos, PRICE_TOLERANCE]
  have htp : tpCond overlapPos.direction overlapPos.tp_levels.tp1 100 = true := by
    norm_num [tpCond, overlapPos, basePos, PRICE_TOLERANCE]
  have h := claim_C2_theorem 7 100 overlapPos rfl rfl hsl (Or.inl ⟨rfl, htp⟩)
  exact ⟨rfl, hsl, htp, h.2.1, h.1⟩

/-! ## Claim C3 -/

/-- C3: all not-yet-hit targets are evaluated in a single reprice cycle —
for a LONG position with all three targets unhit, a price satisfying all
three target conditions (and not the stop condition) marks all three hit
in one `_check_tp_sl_hits` call, records one event per level with its
own price and timestamp, and closes the position with ALL_TP_HIT (the
source's string for the spec's ALL_TARGETS_HIT). -/
theorem claim_C3_theorem (now p : ℚ) (pos : Position)
    (hactive : pos.status = Status.ACTIVE)
    (hdir : pos.direction = Direction.LONG)
    (hflags : pos.tp_hit = ⟨false, false, false⟩)
    (hc1 : tpCond pos.direction pos.tp_levels.tp1 p = true)
    (hc2 : tpCond pos.direction pos.tp_levels.tp2 p = true)
    (hc3 : tpCond pos.direction pos.tp_levels.tp3 p = true)
    (hsl : slCond pos.direction pos.sl_level p = false) :
    (check_tp_sl_hits now pos pos.current_price p).1.tp_hit = ⟨true, true, true⟩ ∧
    (check_tp_sl_hits now pos pos.current_price p).1.status = Status.CLOSED ∧
    (check_tp_sl_hits now pos pos.current_price p).1.close_reason = some "ALL_TP_HIT" ∧
    (check_tp_sl_hits now pos pos.current_price p).2 =
      some ⟨some ⟨true, p, pos.tp_levels.tp1, now⟩,
            some ⟨true, p, pos.tp_levels.tp2, now⟩,
            some ⟨true, p, pos.tp_levels.tp3, now⟩,
            none, true⟩ := by
  unfold check_tp_sl_hits tpStep1 tpStep2 tpStep3 slStep
  dsimp only
  by_cases hs : pos.sl_hit <;>
    simp_all [Updates.isEmpty, Updates.empty]

/-- C3 witness: a LONG position with entry 100, targets 101 / 102 / 103 and
stop 97 repriced at 103.5 hits all three targets at once and closes with
ALL_TP_HIT. -/
theorem claim_C3_witness :
    basePos.direction = Direction.LONG ∧
    basePos.tp_hit = ⟨false, false, false⟩ ∧
    (check_tp_sl_hits 3 basePos basePos.current_price (1035 / 10)).1.tp_hit =
      ⟨true, true, true⟩ ∧
    (check_tp_sl_hits 3 basePos basePos.current_price (1035 / 10)).1.status =
      Status.CLOSED ∧
    (check_tp_sl_hits 3 basePos basePos.current_price (1035 / 10)).1.close_reason =
      some "ALL_TP_HIT" := by
  have hc1 : tpCond basePos.direction basePos.tp_levels.tp1 (1035 / 10) = true := by
    norm_num [tpCond, basePos, PRICE_TOLERANCE]
  have hc2 : tpCond basePos.direction basePos.tp_levels.tp2 (1035 / 10) = true := by
    norm_num [tpCond, basePos, PRICE_TOLERANCE]
  have hc3 : tpCond basePos.direction basePos.tp_levels.tp3 (1035 / 10) = true := by
    norm_num [tpCond, basePos, PRICE_TOLERANCE]
  have hsl : slCond basePos.direction basePos.sl_level (1035 / 10) = false := by
    norm_num [slCond, basePos, PRICE_TOLERANCE]
  have h := claim_C3_theorem 3 (1035 / 10) basePos rfl rfl rfl hc1 hc2 hc3 hsl
  exact ⟨rfl, rfl, h.1, h.2.1, h.2.2.1⟩

/-! ## Claim C1 -/

/-- C1 counterexample: `create_position` keys positions by
(symbol, timeframe, direction), so after a LONG position is created and
still ACTIVE for (BTCUSDT, 4h), a SHORT create for the same
(instrument, interval) is *not* rejected — both ids are returned and
both positions are ACTIVE at once. -/
theorem claim_C1_counterexample :
    (create_position noCache 0 [] sigLong).1 = some "BTCUSDT_4h_LONG" ∧
    (alistLookup (create_position noCache 0 [] sigLong).2 "BTCUSDT_4h_LONG").map
      Position.status = some Status.ACTIVE ∧
    (create_position noCache 0 (create_position noCache 0 [] sigLong).2 sigShort).1 =
      some "BTCUSDT_4h_SHORT" ∧
    (alistLookup
      (create_position noCache 0 (create_position noCache 0 [] sigLong).2 sigShort).2
      "BTCUSDT_4h_LONG").map Position.status = some Status.ACTIVE ∧
    (alistLookup
      (create_position noCache 0 (create_position noCache 0 [] sigLong).2 sigShort).2
      "BTCUSDT_4h_SHORT").map Position.status = some Status.ACTIVE := by
  have hdata : validate_price_data (100 : ℚ) = true := by
    norm_num [validate_price_data]
  have hsane : validate_price_sanity (100 : ℚ) (none : Option ℚ) = true := by
    norm_num [validate_price_sanity]
  refine ⟨?_, ?_, ?_, ?_, ?_⟩ <;>
    simp [create_position, noCache, sigLong, sigShort, positionId, dirString,
      alistLookup, alistInsert, hdata, hsane]

/-- C1 (amended): `create_position` rejects (returns no id, store unchanged)
exactly when an ACTIVE position exists under the same
(instrument, interval, direction) key; a LONG and a SHORT may be ACTIVE
concurrently for the same (instrument, interval) since they live under
different keys (the cross-direction gate lives in the caller
`SignalDetector._handle_signal_position_fixed`, not in `create`); once
the same-key position is CLOSED (or absent), a create with valid prices
succeeds. -/
theorem claim_C1_theorem (price_cache : String → Option ℚ) (now : ℚ)
    (st : Store) (sd : SignalData)
    (hdata : validate_price_data sd.current_price = true)
    (hsane : validate_price_sanity sd.current_price (price_cache sd.symbol) = true) :
    ((∃ pos, alistLookup st (positionId sd.symbol sd.timeframe sd.direction) = some pos ∧
        pos.status = Status.ACTIVE) →
      create_position price_cache now st sd = (none, st)) ∧
    ((∀ pos, alistLookup st (positionId sd.symbol sd.timeframe sd.direction) = some pos →
        pos.status = Status.CLOSED) →
      (create_position price_cache now st sd).1 =
        some (positionId sd.symbol sd.timeframe sd.direction)) := by
  constructor
  · rintro ⟨pos, hl, hs⟩
    simp [create_position, hdata, hsane, hl, hs]
  · intro hall
    cases hl : alistLookup st (positionId sd.symbol sd.timeframe sd.direction) with
    | none => simp [create_position, hdata, hsane, hl]
    | some pos =>
      have hc := hall pos hl
      simp [create_position, hdata, hsane, hl, hc]

/-- C1 witness: with an ACTIVE LONG under the key, a LONG create is
rejected; with the same key CLOSED, the create succeeds. -/
theorem claim_C1_witness :
    create_position noCache 0 [("BTCUSDT_4h_LONG", basePos)] sigLong =
      (none, [("BTCUSDT_4h_LONG", basePos)]) ∧
    (create_position noCache 0 [("BTCUSDT_4h_LONG", closedPos)] sigLong).1 =
      some "BTCUSDT_4h_LONG" := by
  have hdata : validate_price_data sigLong.current_price = true := by
    norm_num [validate_price_data, sigLong]
  have hsane : validate_price_sanity sigLong.current_price (noCache sigLong.symbol)
      = true := by
    norm_num [validate_price_sanity, noCache, sigLong]
  constructor
  · refine (claim_C1_theorem noCache 0 [("BTCUSDT_4h_LONG", basePos)] sigLong
      hdata hsane).1 ⟨basePos, ?_, rfl⟩
    simp [alistLookup, positionId, dirString, sigLong]
  · refine (claim_C1_theorem noCache 0 [("BTCUSDT_4h_LONG", closedPos)] sigLong
      hdata hsane).2 ?_
    intro pos hp
    simp [alistLookup, positionId, dirString, sigLong] at hp
    rw [← hp]
    rfl

/-! ## Claim C6 -/

/-- C6 counterexample: with an ACTIVE LONG position for BTCUSDT (so that
creation for (BTCUSDT, 4h) is refused) and an empty history (so that
`should_notify` is true), the duplicate-alert gate of `analyze_symbol`
does *not* record history for the produced direction — the hard block on
active positions returns first and leaves the history unchanged. -/
theorem claim_C6_counterexample :
    (create_position noCache 0 [("BTCUSDT_4h_LONG", basePos)] sigLong).1 = none ∧
    should_notify 0 [] "BTCUSDT" "4h" "LONG" 100 = true ∧
    analyze_notify_block 0 [("BTCUSDT_4h_LONG", basePos)] [] "BTCUSDT" "4h"
      true false 100 = ([], false) := by
  have hdata : validate_price_data (100 : ℚ) = true := by
    norm_num [validate_price_data]
  have hsane : validate_price_sanity (100 : ℚ) (none : Option ℚ) = true := by
    norm_num [validate_price_sanity]
  refine ⟨?_, rfl, ?_⟩
  · simp [create_position, noCache, sigLong, positionId, dirString,
      alistLookup, basePos, hdata, hsane]
  · simp [analyze_notify_block, has_active_position_any_tf, basePos]

/-- C6 (amended): in `analyze_symbol`, when a direction is produced,
`record_signal` and `clear_opposite_signal` run only when *no* ACTIVE
position exists for the instrument on any timeframe (the hard block) and
`should_notify` is true; in particular, when creation is refused because
an ACTIVE position exists for that instrument, history is *not*
recorded — history recording is not decoupled from position state. -/
theorem claim_C6_theorem (now : ℚ) (st : Store) (h : History)
    (symbol timeframe : String) (price : ℚ) (buy short : Bool) (sig : String)
    (hsig : (if buy then some "LONG" else if short then some "SHORT" else none) =
      some sig) :
    (has_active_position_any_tf st symbol = true →
      analyze_notify_block now st h symbol timeframe buy short price = (h, false)) ∧
    (has_active_position_any_tf st symbol = false →
      should_notify now h symbol timeframe sig price = true →
      analyze_notify_block now st h symbol timeframe buy short price =
        (clear_opposite_signal (record_signal now h symbol timeframe sig price)
          symbol timeframe sig, true)) := by
  constructor
  · intro hact
    unfold analyze_notify_block
    rw [hsig]
    simp [hact]
  · intro hact hsn
    unfold analyze_notify_block
    rw [hsig]
    simp [hact, hsn]

/-- C6 witness: the hard block suppresses recording when an ACTIVE position
exists for the symbol; with no active position and a passing cooldown,
record and clear-opposite do run. -/
theorem claim_C6_witness :
    analyze_notify_block 0 [("BTCUSDT_4h_LONG", basePos)] [] "BTCUSDT" "4h"
      true false 100 = ([], false) ∧
    analyze_notify_block 0 [] [] "BTCUSDT" "4h" true false 100 =
      (clear_opposite_signal (record_signal 0 [] "BTCUSDT" "4h" "LONG" 100)
        "BTCUSDT" "4h" "LONG", true) :=
  ⟨(claim_C6_theorem 0 [("BTCUSDT_4h_LONG", basePos)] [] "BTCUSDT" "4h" 100
      true false "LONG" rfl).1
      (by simp [has_active_position_any_tf, basePos]),
   (claim_C6_theorem 0 [] [] "BTCUSDT" "4h" 100 true false "LONG" rfl).2
      rfl rfl⟩

/-! ## Claim C8 -/

/-- C8 counterexample: the levels returned by `calculate_levels` are rounded
to 6 decimal digits, so for the valid input entry = 10⁻⁷,
stopPct = 3, targetPcts = [3, 5, 7] the stop is 0 — not
entry × (1 − stopPct/100) — and the LONG ordering entry < target1 fails
(target1 also rounds to 0). -/
theorem claim_C8_counterexample :
    (calculate_levels (1 / 10 ^ 7) Direction.LONG 3 [3, 5, 7]).map
      RiskLevels.stop_loss = some 0 ∧
    (0 : ℚ) ≠ (1 / 10 ^ 7 : ℚ) * (1 - 3 / 100) ∧
    (calculate_levels (1 / 10 ^ 7) Direction.LONG 3 [3, 5, 7]).map
      RiskLevels.take_profit_1 = some 0 ∧
    ¬ ((1 / 10 ^ 7 : ℚ) < 0) := by
  have e1 : ((97 : ℚ) / 1000000000) * 10 ^ 6 = 97 / 1000 := by norm_num
  have e2 : ((103 : ℚ) / 1000000000) * 10 ^ 6 = 103 / 1000 := by norm_num
  have h1 : pyRound 6 ((97 : ℚ) / 1000000000) = 0 := by
    rw [pyRound, e1, roundHalfEven_eq_zero _ (by norm_num) (by norm_num)]
    norm_num
  have h2 : pyRound 6 ((103 : ℚ) / 1000000000) = 0 := by
    rw [pyRound, e2, roundHalfEven_eq_zero _ (by norm_num) (by norm_num)]
    norm_num
  refine ⟨?_, by norm_num, ?_, by norm_num⟩ <;>
    norm_num [calculate_levels, h1, h2]

/-- C8 (amended): for valid inputs, `calculate_levels` returns the rounded
levels round₆(entry × (1 ∓ stopPct/100)) and
round₆(entry × (1 ± targetPctᵢ/100)); whenever each adjacent pair of
exact levels differs by more than 10⁻⁶ (the rounding quantum), the
strict ordering stop < entry < t1 < t2 < t3 holds for LONG and
t3 < t2 < t1 < entry < stop for SHORT. -/
theorem claim_C8_theorem (entry sl_pct t1 t2 t3 : ℚ)
    (hentry : 0 < entry) (hsl : 0 < sl_pct)
    (ht1 : 0 < t1) (ht12 : t1 < t2) (ht23 : t2 < t3)
    (gsl : 1 / 10 ^ 6 < entry * (sl_pct / 100))
    (g1 : 1 / 10 ^ 6 < entry * (t1 / 100))
    (g2 : 1 / 10 ^ 6 < entry * ((t2 - t1) / 100))
    (g3 : 1 / 10 ^ 6 < entry * ((t3 - t2) / 100)) :
    (∃ lv, calculate_levels entry Direction.LONG sl_pct [t1, t2, t3] = some lv ∧
      lv.stop_loss = pyRound 6 (entry * (1 - sl_pct / 100)) ∧
      lv.take_profit_1 = pyRound 6 (entry * (1 + t1 / 100)) ∧
      lv.take_profit_2 = pyRound 6 (entry * (1 + t2 / 100)) ∧
      lv.take_profit_3 = pyRound 6 (entry * (1 + t3 / 100)) ∧
      lv.stop_loss < entry ∧ entry < lv.take_profit_1 ∧
      lv.take_profit_1 < lv.take_profit_2 ∧ lv.take_profit_2 < lv.take_profit_3) ∧
    (∃ lv, calculate_levels entry Direction.SHORT sl_pct [t1, t2, t3] = some lv ∧
      lv.stop_loss = pyRound 6 (entry * (1 + sl_pct / 100)) ∧
      lv.take_profit_1 = pyRound 6 (entry * (1 - t1 / 100)) ∧
      lv.take_profit_2 = pyRound 6 (entry * (1 - t2 / 100)) ∧
      lv.take_profit_3 = pyRound 6 (entry * (1 - t3 / 100)) ∧
      lv.take_profit_3 < lv.take_profit_2 ∧ lv.take_profit_2 < lv.take_profit_1 ∧
      lv.take_profit_1 < entry ∧ entry < lv.stop_loss) := by
  have hne : ¬ entry ≤ 0 := not_le.mpr hentry
  have hq : (1 : ℚ) / (2 * 10 ^ 6) + 1 / (2 * 10 ^ 6) = 1 / 10 ^ 6 := by norm_num
  constructor
  · refine ⟨⟨entry, pyRound 6 (entry * (1 - sl_pct / 100)),
      pyRound 6 (entry * (1 + t1 / 100)), pyRound 6 (entry * (1 + t2 / 100)),
      pyRound 6 (entry * (1 + t3 / 100))⟩,
      by simp [calculate_levels, hne], rfl, rfl, rfl, rfl, ?_, ?_, ?_, ?_⟩
    · have hb := (pyRound_bounds 6 (entry * (1 - sl_pct / 100))).2
      have e : entry * (1 - sl_pct / 100) = entry - entry * (sl_pct / 100) := by ring
      linarith
    · have hb := (pyRound_bounds 6 (entry * (1 + t1 / 100))).1
      have e : entry * (1 + t1 / 100) = entry + entry * (t1 / 100) := by ring
      linarith
    · have hb1 := (pyRound_bounds 6 (entry * (1 + t1 / 100))).2
      have hb2 := (pyRound_bounds 6 (entry * (1 + t2 / 100))).1
      have e : entry * (1 + t2 / 100) - entry * (1 + t1 / 100) =
        entry * ((t2 - t1) / 100) := by ring
      linarith
    · have hb1 := (pyRound_bounds 6 (entry * (1 + t2 / 100))).2
      have hb2 := (pyRound_bounds 6 (entry * (1 + t3 / 100))).1
      have e : entry * (1 + t3 / 100) - entry * (1 + t2 / 100) =
        entry * ((t3 - t2) / 100) := by ring
      linarith
  · refine ⟨⟨entry, pyRound 6 (entry * (1 + sl_pct / 100)),
      pyRound 6 (entry * (1 - t1 / 100)), pyRound 6 (entry * (1 - t2 / 100)),
      pyRound 6 (entry * (1 - t3 / 100))⟩,
      by simp [calculate_levels, hne], rfl, rfl, rfl, rfl, ?_, ?_, ?_, ?_⟩
    · have hb1 := (pyRound_bounds 6 (entry * (1 - t3 / 100))).2
      have hb2 := (pyRound_bounds 6 (entry * (1 - t2 / 100))).1
      have e : entry * (1 - t2 / 100) - entry * (1 - t3 / 100) =
        entry * ((t3 - t2) / 100) := by ring
      linarith
    · have hb1 := (pyRound_bounds 6 (entry * (1 - t2 / 100))).2
      have hb2 := (pyRound_bounds 6 (entry * (1 - t1 / 100))).1
      have e : entry * (1 - t1 / 100) - entry * (1 - t2 / 100) =
        entry * ((t2 - t1) / 100) := by ring
      linarith
    · have hb := (pyRound_bounds 6 (entry * (1 - t1 / 100))).2
      have e : entry * (1 - t1 / 100) = entry - entry * (t1 / 100) := by ring
      linarith
    · have hb := (pyRound_bounds 6 (entry * (1 + sl_pct / 100))).1
      have e : entry * (1 + sl_pct / 100) = entry + entry * (sl_pct / 100) := by ring
      linarith

/-- C8 witness: the amended claim at entry 100, stopPct 3,
targetPcts [3, 5, 7]. -/
theorem claim_C8_witness :
    (∃ lv, calculate_levels 100 Direction.LONG 3 [3, 5, 7] = some lv ∧
      lv.stop_loss = pyRound 6 (100 * (1 - 3 / 100)) ∧
      lv.take_profit_1 = pyRound 6 (100 * (1 + 3 / 100)) ∧
      lv.take_profit_2 = pyRound 6 (100 * (1 + 5 / 100)) ∧
      lv.take_profit_3 = pyRound 6 (100 * (1 + 7 / 100)) ∧
      lv.stop_loss < 100 ∧ (100 : ℚ) < lv.take_profit_1 ∧
      lv.take_profit_1 < lv.take_profit_2 ∧ lv.take_profit_2 < lv.take_profit_3) ∧
    (∃ lv, calculate_levels 100 Direction.SHORT 3 [3, 5, 7] = some lv ∧
      lv.stop_loss = pyRound 6 (100 * (1 + 3 / 100)) ∧
      lv.take_profit_1 = pyRound 6 (100 * (1 - 3 / 100)) ∧
      lv.take_profit_2 = pyRound 6 (100 * (1 - 5 / 100)) ∧
      lv.take_profit_3 = pyRound 6 (100 * (1 - 7 / 100)) ∧
      lv.take_profit_3 < lv.take_profit_2 ∧ lv.take_profit_2 < lv.take_profit_1 ∧
      lv.take_profit_1 < 100 ∧ (100 : ℚ) < lv.stop_loss) :=
  claim_C8_theorem 100 3 3 5 7 (by norm_num) (by norm_num) (by norm_num)
    (by norm_num) (by norm_num) (by norm_num) (by norm_num) (by norm_num)
    (by norm_num)

end SignalAlert
